import Mathlib

/-!
Verification of the Gas Town Molecule/Gate coordination engine.

The development shallowly embeds the data model and the operations of the
engine: the step scheduler (`ready`), the Gate subsystem (`close`, wake
delivery, cooldown gates), the formula compiler (`cook`), the attach/pin
protocol (`attachPolecatWorkMolecule`), and the `poll-pr-gates` plugin's
action loop.  The plugin's action loop is embedded from the shell script in
`plugins/poll-pr-gates/plugin.md`; the other operations are modelled from the
specification (sections 4.1 through 4.6) together with the behaviour fixed by
the tests in `internal/cmd` (the attach tests), because their Go
implementations are not part of the analysed sources.
-/

namespace Gastown

/-! ## Step scheduler data model -/

/-- Status of a Step: `pending`, `in_progress`, `closed`, or `skipped`. -/
inductive StepStatus where
  | pending
  | in_progress
  | closed
  | skipped
deriving DecidableEq, Repr

/-- Modelled from the spec: a Step belongs to one instance and carries an id,
a description, a dependency id set and a status (section 3, data model; the
scheduler implementation is not among the analysed sources). -/
structure Step where
  id : String
  description : String
  deps : List String
  status : StepStatus
deriving DecidableEq, Repr

/-- Modelled from the spec: a Molecule instance is its list of Steps in
declaration order (section 3). -/
structure Molecule where
  steps : List Step
deriving DecidableEq, Repr

/-- Look up a Step of the instance by id (first match in declaration order). -/
def findStep (inst : Molecule) (d : String) : Option Step :=
  inst.steps.find? (fun t => t.id == d)

/-- A dependency id counts as closed when it resolves to a Step of the
instance whose status is `closed`. -/
def depClosed (inst : Molecule) (d : String) : Bool :=
  match findStep inst d with
  | some t => decide (t.status = StepStatus.closed)
  | none => false

/-- Modelled from the spec: `ready(instance)` returns, in declaration order,
the Steps whose status is `pending` and whose dependency set is fully
`closed` (section 4.3). -/
def ready (inst : Molecule) : List Step :=
  inst.steps.filter (fun s =>
    decide (s.status = StepStatus.pending) && s.deps.all (depClosed inst))

/-! ## Gate subsystem -/

/-- Modelled from the spec: a Gate has an await type descriptor, an
open/closed status (here a `closed` flag), an optional close reason, and a
set of waiter references (section 3). -/
structure Gate where
  awaitType : String
  closed : Bool
  reason : Option String
  waiters : List String
deriving DecidableEq, Repr

/-- Modelled from the spec: `close(gate, reason)` closes an open Gate and
records the reason; on an already-closed Gate it is a no-op, so the first
successful close's reason is retained (section 4.5). -/
def close (g : Gate) (r : String) : Gate :=
  if g.closed then g else { g with closed := true, reason := some r }

/-- Modelled from the spec: every close delivers a wake signal to all of the
Gate's registered waiters (section 4.5); the call returns the updated Gate
together with the list of waiters a wake signal is delivered to. -/
def closeAndWake (g : Gate) (r : String) : Gate × List String :=
  (close g r, g.waiters)

/-! ## Scheduler: claim theorems -/

/-- C1: every Step returned by `ready` has status `pending`, and every
dependency of such a Step resolves to a Step of the instance whose status is
`closed`; `ready` never returns a Step with a non-closed dependency. -/
theorem ready_only_pending_with_closed_deps (inst : Molecule) (s : Step)
    (h : s ∈ ready inst) :
    s.status = StepStatus.pending ∧
      ∀ d ∈ s.deps, ∃ t, findStep inst d = some t ∧ t.status = StepStatus.closed := by
  rw [ready, List.mem_filter, Bool.and_eq_true, decide_eq_true_eq] at h
  obtain ⟨-, hpend, hall⟩ := h
  refine ⟨hpend, fun d hd => ?_⟩
  rw [List.all_eq_true] at hall
  have hc := hall d hd
  unfold depClosed at hc
  cases hf : findStep inst d with
  | none => rw [hf] at hc; exact absurd hc (by simp)
  | some t =>
    rw [hf] at hc
    exact ⟨t, rfl, by simpa using hc⟩

/-- Witness for C1 on the concrete three-step instance of the spec scenario
after closing step a: ready returns step b, whose only dependency a is
closed. -/
theorem ready_only_pending_with_closed_deps_witness :
    let a : Step := ⟨"a", "first", [], StepStatus.closed⟩
    let b : Step := ⟨"b", "second", ["a"], StepStatus.pending⟩
    let c : Step := ⟨"c", "third", ["b"], StepStatus.pending⟩
    let inst : Molecule := ⟨[a, b, c]⟩
    b.status = StepStatus.pending ∧
      ∀ d ∈ b.deps, ∃ t, findStep inst d = some t ∧ t.status = StepStatus.closed :=
  ready_only_pending_with_closed_deps _ _ (by decide)

/-! ## Gate subsystem: claim theorems -/

/-- C2: on an open Gate, closing with `reasonA` and then with `reasonB`
leaves the Gate closed with the first reason retained, and the second close
changes no state at all: the Gate transitions open to closed exactly once. -/
theorem close_idempotent_first_reason_retained (g : Gate) (reasonA reasonB : String)
    (h : g.closed = false) :
    close (close g reasonA) reasonB = close g reasonA ∧
      (close g reasonA).reason = some reasonA ∧
      (close g reasonA).closed = true := by
  simp [close, h]

/-- Witness for C2 on the spec's scenario Gate: an open `pr-merge:42` Gate
closed with reason `PR #42 merged` and then with reason `ignored` keeps the
first reason. -/
theorem close_idempotent_first_reason_retained_witness :
    let g : Gate := ⟨"pr-merge:42", false, none, ["worker-1", "worker-2"]⟩
    close (close g "PR #42 merged") "ignored" = close g "PR #42 merged" ∧
      (close g "PR #42 merged").reason = some "PR #42 merged" ∧
      (close g "PR #42 merged").closed = true :=
  close_idempotent_first_reason_retained _ "PR #42 merged" "ignored" rfl

/-- C6: every close of a Gate delivers a wake signal to each of the Gate's
registered waiters (at least once: the delivery list is never trimmed, even
on a re-close), and after any close the Gate's `closed` status reads `true`,
so the status a waiter observes on its own next read is authoritative. -/
theorem close_wakes_all_waiters (g : Gate) (r : String) (w : String)
    (hw : w ∈ g.waiters) :
    w ∈ (closeAndWake g r).2 ∧ (closeAndWake g r).1.closed = true := by
  refine ⟨hw, ?_⟩
  simp only [closeAndWake, close]
  split
  · assumption
  · rfl

/-- Witness for C6: closing a concrete open `gh:pr:7` Gate delivers a wake
to its registered waiter `refinery-mail`, and the Gate then reads closed. -/
theorem close_wakes_all_waiters_witness :
    let g : Gate := ⟨"gh:pr:7", false, none, ["refinery-mail"]⟩
    "refinery-mail" ∈ (closeAndWake g "PR #7 merged").2 ∧
      (closeAndWake g "PR #7 merged").1.closed = true :=
  close_wakes_all_waiters _ "PR #7 merged" "refinery-mail" (by decide)

/-! ## Cooldown gates and the plugin runner tick -/

/-- Modelled from the spec: a cooldown Gate records its creation time and its
configured duration; it is self-closing by elapsed wall-clock time alone
(section 4.5; the plugin-runner implementation is not among the analysed
sources).  Times are wall-clock instants in an abstract unit. -/
structure CooldownGate where
  createdAt : Nat
  duration : Nat
deriving DecidableEq, Repr

/-- A cooldown Gate created at `createdAt` with duration `duration` has
expired at instant `now` exactly when `createdAt + duration ≤ now`. -/
def cooldownExpired (g : CooldownGate) (now : Nat) : Bool :=
  decide (g.createdAt + g.duration ≤ now)

/-- Modelled from the spec: one tick of the plugin runner for one plugin.
If the plugin's cooldown Gate has expired the plugin body runs (the returned
flag) and the cooldown Gate is recreated for the next interval; otherwise
nothing runs and the Gate is unchanged (section 4.6). -/
def pluginTick (g : CooldownGate) (now : Nat) : Bool × CooldownGate :=
  if cooldownExpired g now then (true, ⟨now, g.duration⟩) else (false, g)

/-- C7: a cooldown Gate created at `T` with duration `D` triggers a run at
instant `t` exactly when `T + D ≤ t` — never strictly before `T + D` — and
once a run triggers at `t`, the recreated Gate triggers no further run
strictly before `t + D`, so at most one run occurs per configured interval. -/
theorem cooldown_gate_rate_limits (T D t t2 : Nat) :
    ((pluginTick ⟨T, D⟩ t).1 = true ↔ T + D ≤ t) ∧
      (T + D ≤ t → t2 < t + D → (pluginTick (pluginTick ⟨T, D⟩ t).2 t2).1 = false) := by
  constructor
  · by_cases h : T + D ≤ t
    · simp [pluginTick, cooldownExpired, h]
    · simp [pluginTick, cooldownExpired, h]
  · intro h1 h2
    have hfirst : pluginTick ⟨T, D⟩ t = (true, ⟨t, D⟩) := by
      simp [pluginTick, cooldownExpired, h1]
    rw [hfirst]
    have hcool : cooldownExpired ⟨t, D⟩ t2 = false := by
      simp only [cooldownExpired, decide_eq_false_iff_not]
      omega
    simp [pluginTick, hcool]

/-- Witness for C7 with a 5-minute cooldown created at instant 100: it
triggers at instant 105, and the recreated Gate does not trigger at 109. -/
theorem cooldown_gate_rate_limits_witness :
    ((pluginTick ⟨100, 5⟩ 105).1 = true ↔ 100 + 5 ≤ 105) ∧
      (100 + 5 ≤ 105 → 109 < 105 + 5 →
        (pluginTick (pluginTick ⟨100, 5⟩ 105).2 109).1 = false) :=
  cooldown_gate_rate_limits 100 5 105 109

/-! ## Formula compiler (cook) -/

/-- Modelled from the spec: an authored template step with an id, a
description and a dependency id set (`needs`, as in the formula TOML files
of the README). -/
structure FStep where
  id : String
  description : String
  needs : List String
deriving DecidableEq, Repr

/-- Modelled from the spec: a Formula is an authored, ordered list of
template steps; composition (`extends`) is presented to `cook` as the chain
of formulas to merge, earlier entries first (section 4.1). -/
structure Formula where
  name : String
  steps : List FStep
deriving DecidableEq, Repr

/-- Modelled from the spec: the frozen, fully-merged expansion of a Formula
chain, with a flat resolved step list (section 3). -/
structure Protomolecule where
  steps : List FStep
deriving DecidableEq, Repr

/-- Compilation failures: a dependency cycle or an unresolvable dependency
id (section 7, error taxonomy). -/
inductive CompileError where
  | cyclic
  | unresolved
deriving DecidableEq, Repr

/-- Merge one step into an accumulated step list by id: a step whose id is
already present overrides the earlier entry in place, otherwise it is
appended (later chain entries override earlier ones). -/
def mergeStep (acc : List FStep) (s : FStep) : List FStep :=
  if acc.any (fun t => t.id == s.id) then
    acc.map (fun t => if t.id == s.id then s else t)
  else acc ++ [s]

/-- Flatten a composition chain into one merged step list, later formulas
overriding earlier ones step-id-wise. -/
def mergeChain (chain : List Formula) : List FStep :=
  chain.foldl (fun acc f => f.steps.foldl mergeStep acc) []

/-- Every dependency id resolves to a step of the same merged list. -/
def depsResolved (steps : List FStep) : Bool :=
  steps.all (fun s => s.needs.all (fun d => steps.any (fun t => t.id == d)))

/-- A step is removable once all of its dependencies are already removed. -/
def removable (done : List String) (s : FStep) : Bool :=
  s.needs.all (fun d => done.contains d)

/-- Fuel-bounded Kahn-style elimination: repeatedly remove steps all of whose
dependencies are removed; the list is acyclic exactly when it empties. -/
def topoCheck : Nat → List FStep → List String → Bool
  | 0, remaining, _ => remaining.isEmpty
  | fuel + 1, remaining, done =>
    let rm := remaining.filter (removable done)
    if rm.isEmpty then remaining.isEmpty
    else topoCheck fuel (remaining.filter (fun s => !removable done s))
      (done ++ rm.map (fun s => s.id))

/-- The merged step list has no dependency cycle. -/
def acyclic (steps : List FStep) : Bool :=
  topoCheck steps.length steps []

/-- Modelled from the spec: `cook` flattens the composition chain by step id,
requires every dependency to resolve within the same protomolecule, rejects
cycles with `CompileError.cyclic`, and returns the frozen Protomolecule
(section 4.1). -/
def cook (chain : List Formula) : Except CompileError Protomolecule :=
  let steps := mergeChain chain
  if !depsResolved steps then .error .unresolved
  else if !acyclic steps then .error .cyclic
  else .ok ⟨steps⟩

/-- C8: `cook` is deterministic — two runs on identical Formula input return
structurally identical results (identical Protomolecules on success). -/
theorem cook_deterministic (chain1 chain2 : List Formula) (h : chain1 = chain2) :
    cook chain1 = cook chain2 := by
  rw [h]

/-- Witness for C8: two runs of `cook` on the README's `shiny` formula agree. -/
theorem cook_deterministic_witness :
    cook [⟨"shiny", [⟨"design", "Think about architecture", []⟩,
                     ⟨"implement", "", ["design"]⟩,
                     ⟨"test", "", ["implement"]⟩,
                     ⟨"submit", "", ["test"]⟩]⟩] =
      cook [⟨"shiny", [⟨"design", "Think about architecture", []⟩,
                       ⟨"implement", "", ["design"]⟩,
                       ⟨"test", "", ["implement"]⟩,
                       ⟨"submit", "", ["test"]⟩]⟩] :=
  cook_deterministic _ _ rfl

/-! ## Attach / pin protocol -/

/-- Status of an AgentBead: `open`, `pinned`, `deferred`, or `closed`
(the first constructor carries a trailing underscore because `open` is a
Lean keyword). -/
inductive BeadStatus where
  | open_
  | pinned
  | deferred
  | closed
deriving DecidableEq, Repr

/-- Modelled from the spec: an AgentBead is a worker identity/assignment
slot with a status and at most one attached instance, recorded as metadata
(`attached_molecule` id and `attached_at` timestamp, section 3). -/
structure AgentBead where
  id : String
  status : BeadStatus
  attached_molecule : Option String
  attached_at : Option String
deriving DecidableEq, Repr

/-- The persisted side effects a successful attach performs, in order: cook
the `mol-polecat-work` formula, update the bead to `status=pinned`, attach
the molecule (the `bd` commands logged by the attach tests). -/
inductive AttachOp where
  | cookFormula
  | pinBead
  | attachMolecule
deriving DecidableEq, Repr

/-- Attach failures: a malformed target identity, or a bead whose status
admits no attachment (section 7: `TargetFormatError`; section 4.4 step 2). -/
inductive AttachError where
  | targetFormat
  | badStatus
deriving DecidableEq, Repr

/-- Split a character list on a separator character, `strings.Split` style:
the result always has one more part than there are separators. -/
def splitOnChar (c : Char) : List Char → List (List Char)
  | [] => [[]]
  | x :: xs =>
    let r := splitOnChar c xs
    if x = c then [] :: r
    else
      match r with
      | [] => [[x]]
      | y :: ys => (x :: y) :: ys

/-- The target identity matches the fixed three-segment shape
`<scope>/polecats/<name>` required by the attach protocol (section 4.4 and
the invalid-format attach test). -/
def validTarget (s : String) : Bool :=
  match splitOnChar '/' s.data with
  | [_, mid, _] => mid = "polecats".data
  | _ => false

/-- Modelled from the spec: `attachPolecatWorkMolecule` validates the target
shape, returns success with no side effects when the bead already carries an
`attached_molecule` marker, and otherwise cooks the work formula, pins the
bead and persists `attached_molecule` and `attached_at` (section 4.4; order
of effects fixed by the pins-bead-before-attach test, which observes the
cook before the pin update).  It returns the resulting bead together with
the ordered list of persisted operations. -/
def attachPolecatWorkMolecule (targetAgent : String) (bead : AgentBead)
    (molId : String) (now : String) :
    Except AttachError (AgentBead × List AttachOp) :=
  if validTarget targetAgent then
    match bead.attached_molecule with
    | some _ => .ok (bead, [])
    | none =>
      match bead.status with
      | .deferred => .error .badStatus
      | .closed => .error .badStatus
      | _ =>
        .ok ({ bead with
               status := .pinned,
               attached_molecule := some molId,
               attached_at := some now },
             [.cookFormula, .pinBead, .attachMolecule])
  else .error .targetFormat

/-! ## Attach / pin protocol: claim theorems -/

/-- C3: attach is idempotent — whenever a first attach call succeeds and
returns bead state `b2`, a second call on `b2` (which then carries the
`attached_molecule` marker) succeeds, performs no persisted operation, and
returns exactly the state the first call left, at any later timestamp. -/
theorem attach_idempotent_second_call_noop (targetAgent : String)
    (bead b2 : AgentBead) (molId now now2 : String) (ops : List AttachOp)
    (h : attachPolecatWorkMolecule targetAgent bead molId now = .ok (b2, ops)) :
    attachPolecatWorkMolecule targetAgent b2 molId now2 = .ok (b2, []) := by
  unfold attachPolecatWorkMolecule at h ⊢
  by_cases hv : validTarget targetAgent
  · rw [if_pos hv] at h ⊢
    cases hm : bead.attached_molecule with
    | some m =>
      rw [hm] at h
      obtain ⟨rfl, -⟩ : bead = b2 ∧ [] = ops := by
        simpa [Prod.ext_iff, eq_comm] using h
      rw [hm]
    | none =>
      rw [hm] at h
      cases hs : bead.status <;> rw [hs] at h <;> simp at h
      · obtain ⟨hb, -⟩ := h
        rw [← hb]
      · obtain ⟨hb, -⟩ := h
        rw [← hb]
  · rw [if_neg hv] at h
    exact absurd h (by simp)

/-- Witness for C3: a first attach on Toast's open agent bead succeeds, and
the second call returns the identical state with no operations. -/
theorem attach_idempotent_second_call_noop_witness :
    attachPolecatWorkMolecule "gastown/polecats/Toast"
      ⟨"gt-gastown-polecat-Toast", BeadStatus.pinned,
        some "mol-polecat-work", some "2024-01-01T00:00:00Z"⟩
      "mol-polecat-work" "2024-01-02T00:00:00Z" = .ok
      (⟨"gt-gastown-polecat-Toast", BeadStatus.pinned,
        some "mol-polecat-work", some "2024-01-01T00:00:00Z"⟩, []) :=
  attach_idempotent_second_call_noop "gastown/polecats/Toast"
    ⟨"gt-gastown-polecat-Toast", BeadStatus.open_, none, none⟩ _
    "mol-polecat-work" "2024-01-01T00:00:00Z" "2024-01-02T00:00:00Z"
    [.cookFormula, .pinBead, .attachMolecule] rfl

/-- C4: a successful attach on a bead with `status=open` and no
`attached_molecule` marker ends with the bead pinned, `attached_molecule`
set to the instance id, and `attached_at` set to the call's timestamp. -/
theorem attach_open_bead_pins_and_attaches (targetAgent : String)
    (bead : AgentBead) (molId now : String)
    (hv : validTarget targetAgent = true)
    (hs : bead.status = BeadStatus.open_)
    (hm : bead.attached_molecule = none) :
    attachPolecatWorkMolecule targetAgent bead molId now = .ok
      ({ bead with
         status := .pinned,
         attached_molecule := some molId,
         attached_at := some now },
       [.cookFormula, .pinBead, .attachMolecule]) := by
  unfold attachPolecatWorkMolecule
  rw [if_pos hv, hm, hs]

/-- Witness for C4: attaching `mol-polecat-work` to Toast's freshly created
open agent bead pins it and records the attachment metadata. -/
theorem attach_open_bead_pins_and_attaches_witness :
    attachPolecatWorkMolecule "gastown/polecats/Toast"
      ⟨"gt-gastown-polecat-Toast", BeadStatus.open_, none, none⟩
      "mol-polecat-work" "2024-01-01T00:00:00Z" = .ok
      (⟨"gt-gastown-polecat-Toast", BeadStatus.pinned,
        some "mol-polecat-work", some "2024-01-01T00:00:00Z"⟩,
       [.cookFormula, .pinBead, .attachMolecule]) :=
  attach_open_bead_pins_and_attaches "gastown/polecats/Toast"
    ⟨"gt-gastown-polecat-Toast", BeadStatus.open_, none, none⟩
    "mol-polecat-work" "2024-01-01T00:00:00Z" (by decide) rfl rfl

/-- C5: a target identity that does not match the three-segment shape
`<scope>/polecats/<name>` makes attach fail immediately with the target
format error; the error return carries no bead state and no persisted
operation, so nothing is changed. -/
theorem attach_invalid_target_format_error (targetAgent : String)
    (bead : AgentBead) (molId now : String)
    (hv : validTarget targetAgent = false) :
    attachPolecatWorkMolecule targetAgent bead molId now =
      .error .targetFormat := by
  unfold attachPolecatWorkMolecule
  rw [hv]
  rfl

/-- Witness for C5 on the spec's scenario: `gastown/crew/max` has the wrong
middle segment, so attach fails with the target format error. -/
theorem attach_invalid_target_format_error_witness :
    attachPolecatWorkMolecule "gastown/crew/max"
      ⟨"gt-gastown-polecat-Toast", BeadStatus.open_, none, none⟩
      "mol-polecat-work" "2024-01-01T00:00:00Z" = .error .targetFormat :=
  attach_invalid_target_format_error "gastown/crew/max"
    ⟨"gt-gastown-polecat-Toast", BeadStatus.open_, none, none⟩
    "mol-polecat-work" "2024-01-01T00:00:00Z" (by decide)

/-- C9: every successful attach on a bead without an `attached_molecule`
marker performs exactly the persisted operations cook, then pin, then
attach, in that fixed order — the bead is never pinned before cooking. -/
theorem attach_ops_cook_then_pin_then_attach (targetAgent : String)
    (bead b2 : AgentBead) (molId now : String) (ops : List AttachOp)
    (hm : bead.attached_molecule = none)
    (h : attachPolecatWorkMolecule targetAgent bead molId now = .ok (b2, ops)) :
    ops = [.cookFormula, .pinBead, .attachMolecule] := by
  unfold attachPolecatWorkMolecule at h
  by_cases hv : validTarget targetAgent
  · rw [if_pos hv, hm] at h
    cases hs : bead.status <;> rw [hs] at h <;> simp at h
    · exact h.2.symm
    · exact h.2.symm
  · rw [if_neg hv] at h
    exact absurd h (by simp)

/-- Witness for C9: the successful attach on Toast's open, unattached agent
bead logs exactly cook, pin, attach in that order. -/
theorem attach_ops_cook_then_pin_then_attach_witness :
    ([AttachOp.cookFormula, AttachOp.pinBead, AttachOp.attachMolecule]
      : List AttachOp) = [.cookFormula, .pinBead, .attachMolecule] :=
  attach_ops_cook_then_pin_then_attach "gastown/polecats/Toast"
    ⟨"gt-gastown-polecat-Toast", BeadStatus.open_, none, none⟩
    ⟨"gt-gastown-polecat-Toast", BeadStatus.pinned,
      some "mol-polecat-work", some "2024-01-01T00:00:00Z"⟩
    "mol-polecat-work" "2024-01-01T00:00:00Z"
    [.cookFormula, .pinBead, .attachMolecule] rfl rfl

/-! ## The poll-pr-gates plugin action loop

Embedded from the shell script in `plugins/poll-pr-gates/plugin.md`: the
detection step selects the open gates whose `await_type` starts with
`gh:pr:`; the action step extracts the PR number (third `:`-separated
field), queries the PR state, and closes-and-wakes the gate on `MERGED` or
`CLOSED`, leaving it untouched on `OPEN` or an unknown state. -/

/-- One character list is a prefix of another (`jq startswith`). -/
def hasPrefixChars : List Char → List Char → Bool
  | [], _ => true
  | _ :: _, [] => false
  | p :: ps, x :: xs => p = x && hasPrefixChars ps xs

/-- The detection filter of the plugin: the gate's `await_type` starts with
`gh:pr:`. -/
def isGhPrGate (g : Gate) : Bool :=
  hasPrefixChars "gh:pr:".data g.awaitType.data

/-- Extract the PR number from an await type, as the script's
`cut -d: -f3` does: the third `:`-separated field, empty when there are
fewer than three fields. -/
def extractPRNumber (awaitType : String) : String :=
  match splitOnChar ':' awaitType.data with
  | _ :: _ :: n :: _ => String.mk n
  | _ => ""

/-- The per-gate case analysis of the plugin's action loop: on `MERGED`
close the gate with reason `PR #<n> merged` and wake its waiters; on
`CLOSED` close it with reason `PR #<n> closed without merge` and wake; on
`OPEN` or any other state do nothing. -/
def pollPRGate (g : Gate) (prNumber prState : String) : Gate × List String :=
  if prState = "MERGED" then
    closeAndWake g ("PR #" ++ prNumber ++ " merged")
  else if prState = "CLOSED" then
    closeAndWake g ("PR #" ++ prNumber ++ " closed without merge")
  else (g, [])

/-- One run of the plugin over the gate list: select the open `gh:pr:`
gates, skip those whose PR number cannot be extracted, and apply the action
loop to each, given the PR states reported by the `gh pr view` oracle. -/
def pollPrGatesRun (gates : List Gate) (prStateOf : String → String) :
    List (Gate × List String) :=
  (gates.filter (fun g => !g.closed && isGhPrGate g)).map (fun g =>
    let n := extractPRNumber g.awaitType
    if n = "" then (g, []) else pollPRGate g n (prStateOf n))

/-- C10: on a plugin run, every open gate with `gh:pr:` await type and an
extractable PR number is processed; it is closed with a wake to its waiters
with reason `PR #<n> merged` when the PR state is `MERGED`, closed with a
wake with the distinct reason `PR #<n> closed without merge` when the state
is `CLOSED`, and left open with no wake for `OPEN` or any unknown state. -/
theorem poll_pr_gates_action (gates : List Gate) (prStateOf : String → String)
    (g : Gate) (n st : String)
    (hg : g ∈ gates) (hopen : g.closed = false) (hpr : isGhPrGate g = true)
    (hn : n = extractPRNumber g.awaitType) (hne : n ≠ "")
    (hst : st = prStateOf n) :
    pollPRGate g n st ∈ pollPrGatesRun gates prStateOf ∧
      (st = "MERGED" →
        (pollPRGate g n st).1.closed = true ∧
          (pollPRGate g n st).1.reason = some ("PR #" ++ n ++ " merged") ∧
          (pollPRGate g n st).2 = g.waiters) ∧
      (st = "CLOSED" →
        (pollPRGate g n st).1.closed = true ∧
          (pollPRGate g n st).1.reason =
            some ("PR #" ++ n ++ " closed without merge") ∧
          (pollPRGate g n st).2 = g.waiters) ∧
      ("PR #" ++ n ++ " merged" : String) ≠
        "PR #" ++ n ++ " closed without merge" ∧
      (st ≠ "MERGED" → st ≠ "CLOSED" → pollPRGate g n st = (g, [])) := by
  refine ⟨?_, ?_, ?_, ?_, ?_⟩
  · subst hn hst
    refine List.mem_map.mpr ⟨g, List.mem_filter.mpr ⟨hg, ?_⟩, ?_⟩
    · simp [hopen, hpr]
    · simp only []
      rw [if_neg hne]
  · intro hmg
    subst hmg
    simp [pollPRGate, closeAndWake, close, hopen]
  · intro hcl
    subst hcl
    simp [pollPRGate, closeAndWake, close, hopen]
  · intro habs
    have h2 := congrArg (fun s => s.data.length) habs
    simp only [String.data_append, List.length_append, List.length_cons,
      List.length_nil] at h2
    omega
  · intro h1 h2
    rw [pollPRGate, if_neg h1, if_neg h2]

/-- Witness for C10 on a concrete run: one open `gh:pr:123` gate whose PR is
reported `MERGED` is closed with reason `PR #123 merged` and its waiter is
woken. -/
theorem poll_pr_gates_action_witness :
    let g : Gate := ⟨"gh:pr:123", false, none, ["refinery-mail"]⟩
    let run : String → String := fun _ => "MERGED"
    pollPRGate g "123" "MERGED" ∈ pollPrGatesRun [g] run ∧
      ("MERGED" = "MERGED" →
        (pollPRGate g "123" "MERGED").1.closed = true ∧
          (pollPRGate g "123" "MERGED").1.reason =
            some ("PR #" ++ "123" ++ " merged") ∧
          (pollPRGate g "123" "MERGED").2 = g.waiters) ∧
      ("MERGED" = "CLOSED" →
        (pollPRGate g "123" "MERGED").1.closed = true ∧
          (pollPRGate g "123" "MERGED").1.reason =
            some ("PR #" ++ "123" ++ " closed without merge") ∧
          (pollPRGate g "123" "MERGED").2 = g.waiters) ∧
      ("PR #" ++ "123" ++ " merged" : String) ≠
        "PR #" ++ "123" ++ " closed without merge" ∧
      ("MERGED" ≠ "MERGED" → "MERGED" ≠ "CLOSED" →
        pollPRGate g "123" "MERGED" = (g, [])) :=
  poll_pr_gates_action [⟨"gh:pr:123", false, none, ["refinery-mail"]⟩]
    (fun _ => "MERGED") ⟨"gh:pr:123", false, none, ["refinery-mail"]⟩
    "123" "MERGED" (by decide) rfl (by decide) (by decide) (by decide) rfl

end Gastown
